import Mathlib

/-!
Verification of the `indy_besu_vdr` Python wrapper (`types.py`) and of the
transaction/endorsement core it fronts.

The wrapper layer (`src/vdr/wrappers/python/indy_besu_vdr/types.py`) is thin:
plain data records (`Transaction`, `TransactionEndorsingData`, `Schema`,
`CredentialDefinition`) with convenience methods, and stateless registry
classes that forward to an underlying native library.  The records and every
operation the wrapper itself performs (`set_signature`, `Transaction.init`,
the `json.dumps` wrapping in the attribute builders, the constructor call in
`build_resolve_credential_definition_transaction`) are embedded directly from
that file.  Operations implemented only in the native library (serialization,
signing bytes, the endorsement builder, the DID resolver, content-derived
identifiers, argument validation) are modelled from the specification, each
marked `Modelled from the spec:` in its doc comment.

The serialized textual envelope form is represented as a sequence of symbols
(`List Nat` of character codes / tokens); byte strings likewise as `List Nat`.
-/

namespace IndyBesuVdr

/-- Error taxonomy of the library (spec section 7). -/
inductive VdrError where
  | decodeError
  | integrityError
  | invalidArgumentError
  | missingSignatureError
  | chainMismatchError
  deriving DecidableEq, Repr

/-- Python-level error raised by the binding layer on a bad constructor call. -/
inductive PyError where
  | typeError
  deriving DecidableEq, Repr

/-- SignatureData record: recovery identifier and raw signature bytes
(spec data model: {recovery identifier, raw signature bytes}). -/
structure SignatureData where
  recovery_id : Nat
  signature : List Nat
  deriving DecidableEq, Repr

/-- Transaction record with the eight fields the wrapper's `Transaction.init`
copies: type, _from, to, nonce, chain_id, data, signature, hash
(`types.py` lines 26-37). -/
structure Transaction where
  type : String
  _from : Option String
  _to : String
  nonce : Option Nat
  chain_id : Nat
  data : List Nat
  signature : Option SignatureData
  hash : Option (List Nat)
  deriving DecidableEq, Repr

/-- TransactionEndorsingData record with the eight fields the wrapper's
`TransactionEndorsingData.init` copies: to, _from, nonce, contract, method,
endorsing_method, params, signature (`types.py` lines 54-65). -/
structure TransactionEndorsingData where
  _to : String
  _from : String
  nonce : Option Nat
  contract : String
  method : String
  endorsing_method : String
  params : List Nat
  signature : Option SignatureData
  deriving DecidableEq, Repr

/-- `Transaction.set_signature` (`types.py` lines 16-17): assigns the
signature attribute, nothing else. -/
def Transaction.set_signature (t : Transaction) (sig : SignatureData) : Transaction :=
  { t with signature := some sig }

/-- `TransactionEndorsingData.set_signature` (`types.py` lines 44-45): assigns
the signature attribute, nothing else. -/
def TransactionEndorsingData.set_signature (e : TransactionEndorsingData)
    (sig : SignatureData) : TransactionEndorsingData :=
  { e with signature := some sig }

/-- `Transaction.init` (`types.py` lines 26-37): rebuilds a wrapper Transaction
from the eight fields of an inner transaction, in declaration order. -/
def Transaction.init (t : Transaction) : Transaction :=
  ⟨t.type, t._from, t._to, t.nonce, t.chain_id, t.data, t.signature, t.hash⟩

/-- `TransactionEndorsingData.init` (`types.py` lines 54-65): rebuilds a
wrapper TransactionEndorsingData from the eight fields of an inner one. -/
def TransactionEndorsingData.init (e : TransactionEndorsingData) : TransactionEndorsingData :=
  ⟨e._to, e._from, e.nonce, e.contract, e.method, e.endorsing_method, e.params, e.signature⟩

/-! ### Serialized envelope codec

Modelled from the spec: the native serializer (`transaction_to_string`,
`transaction_from_string`, `transaction_endorsing_data_to_string`,
`transaction_endorsing_data_from_string`) is not under `src/`; the spec
requires a self-describing textual encoding preserving every field including
an unset signature, rejecting truncated input with a `DecodeError`.  Fields
are laid out in declaration order; variable-length pieces are length-prefixed
so the decoder consumes a determined amount of input and checks that nothing
is left over. -/

/-- Encode a natural number as a single symbol. -/
def encNat (n : Nat) : List Nat := [n]

/-- Decode a natural number, returning the unconsumed tail. -/
def decNat : List Nat → Option (Nat × List Nat)
  | [] => none
  | n :: r => some (n, r)

/-- Encode a byte sequence, length first. -/
def encBytes (bs : List Nat) : List Nat := bs.length :: bs

/-- Decode a length-prefixed byte sequence; fails when fewer symbols remain
than the announced length. -/
def decBytes : List Nat → Option (List Nat × List Nat)
  | [] => none
  | n :: r => if n ≤ r.length then some (r.take n, r.drop n) else none

/-- Encode a string as its length-prefixed character codes. -/
def encStr (s : String) : List Nat := encBytes (s.data.map Char.toNat)

/-- Decode a length-prefixed string. -/
def decStr (l : List Nat) : Option (String × List Nat) :=
  match decBytes l with
  | some (cs, r) => some (String.mk (cs.map Char.ofNat), r)
  | none => none

/-- Encode an optional value: marker 0 for absent, marker 1 then the value. -/
def encOpt (enc : α → List Nat) : Option α → List Nat
  | none => [0]
  | some a => 1 :: enc a

/-- Decode an optional value from its presence marker. -/
def decOpt (dec : List Nat → Option (α × List Nat)) : List Nat → Option (Option α × List Nat)
  | [] => none
  | 0 :: r => some (none, r)
  | 1 :: r =>
    match dec r with
    | some (a, r') => some (some a, r')
    | none => none
  | (_+2) :: _ => none

/-- Encode a SignatureData: recovery identifier then raw signature bytes. -/
def encSig (s : SignatureData) : List Nat := encNat s.recovery_id ++ encBytes s.signature

/-- Decode a SignatureData. -/
def decSig (l : List Nat) : Option (SignatureData × List Nat) := do
  let (rid, l1) ← decNat l
  let (sb, l2) ← decBytes l1
  pure (⟨rid, sb⟩, l2)

@[simp] theorem decNat_enc (n : Nat) (r : List Nat) : decNat (encNat n ++ r) = some (n, r) := rfl

@[simp] theorem decBytes_enc (bs r : List Nat) : decBytes (encBytes bs ++ r) = some (bs, r) := by
  simp [encBytes, decBytes, List.take_append, List.drop_append]

@[simp] theorem decStr_enc (s : String) (r : List Nat) : decStr (encStr s ++ r) = some (s, r) := by
  simp only [encStr, decStr, decBytes_enc]
  congr
  rw [List.map_map]
  have : ∀ cs : List Char, cs.map (Char.ofNat ∘ Char.toNat) = cs := by
    intro cs
    simp [Function.comp_def, Char.ofNat_toNat]
  rw [this]

@[simp] theorem decOpt_enc (dec : List Nat → Option (α × List Nat)) (enc : α → List Nat)
    (h : ∀ a r, dec (enc a ++ r) = some (a, r)) (o : Option α) (r : List Nat) :
    decOpt dec (encOpt enc o ++ r) = some (o, r) := by
  cases o with
  | none => rfl
  | some a => simp [encOpt, decOpt, h a r]

@[simp] theorem decSig_enc (s : SignatureData) (r : List Nat) : decSig (encSig s ++ r) = some (s, r) := by
  simp [encSig, decSig, List.append_assoc]

/-- A parser consumes a determined amount of input: appending extra symbols
leaves the parse result unchanged and lands in the tail. -/
def ParserExt (p : List Nat → Option (α × List Nat)) : Prop :=
  ∀ s d v r, p s = some (v, r) → p (s ++ d) = some (v, r ++ d)

theorem decNat_ext : ParserExt decNat := by
  intro s d v r h
  cases s with
  | nil => simp [decNat] at h
  | cons n t =>
    simp only [decNat, Option.some.injEq, Prod.mk.injEq] at h
    simp [decNat, h.1, h.2]

theorem decBytes_ext : ParserExt decBytes := by
  intro s d v r h
  cases s with
  | nil => simp [decBytes] at h
  | cons n t =>
    simp only [decBytes] at h
    by_cases hn : n ≤ t.length
    · simp only [if_pos hn, Option.some.injEq, Prod.mk.injEq] at h
      have hlen : n ≤ (t ++ d).length := by simp; omega
      simp only [List.cons_append, decBytes, if_pos hlen]
      rw [List.take_append_of_le_length hn, List.drop_append_of_le_length hn]
      rw [h.1, ← h.2]
    · simp [if_neg hn] at h

theorem decStr_ext : ParserExt decStr := by
  intro s d v r h
  simp only [decStr] at h ⊢
  cases hb : decBytes s with
  | none => rw [hb] at h; exact absurd h (by simp)
  | some p =>
    rw [hb] at h
    obtain ⟨cs, r'⟩ := p
    simp only [Option.some.injEq, Prod.mk.injEq] at h
    rw [decBytes_ext s d cs r' hb]
    simp [h.1, h.2]

theorem decOpt_ext (dec : List Nat → Option (α × List Nat)) (hdec : ParserExt dec) :
    ParserExt (decOpt dec) := by
  intro s d v r h
  match s with
  | [] => simp [decOpt] at h
  | 0 :: t =>
    simp only [decOpt, Option.some.injEq, Prod.mk.injEq] at h
    simp [decOpt, h.1, h.2]
  | 1 :: t =>
    simp only [decOpt] at h
    cases hd : dec t with
    | none => rw [hd] at h; exact absurd h (by simp)
    | some p =>
      rw [hd] at h
      obtain ⟨a, r'⟩ := p
      simp only [Option.some.injEq, Prod.mk.injEq] at h
      simp only [List.cons_append, decOpt, hdec t d a r' hd]
      simp [h.1, h.2]
  | (n+2) :: t => simp [decOpt] at h

theorem decSig_ext : ParserExt decSig := by
  intro s d v r h
  simp only [decSig, Option.bind_eq_bind, Option.bind_eq_some, Option.pure_def,
    Option.some.injEq] at h
  obtain ⟨⟨rid, l1⟩, h1, ⟨sb, l2⟩, h2, h3⟩ := h
  dsimp only at h1 h2 h3
  rw [Prod.mk.injEq] at h3
  obtain ⟨hv, hr⟩ := h3
  subst hv hr
  simp [decSig, decNat_ext s d rid l1 h1, decBytes_ext l1 d sb l2 h2]

/-- Modelled from the spec: `transaction_to_string` — serialize every field of
a Transaction in declaration order, including an unset signature. -/
def transaction_to_string (t : Transaction) : List Nat :=
  encStr t.type ++ encOpt encStr t._from ++ encStr t._to ++ encOpt encNat t.nonce ++
    encNat t.chain_id ++ encBytes t.data ++ encOpt encSig t.signature ++ encOpt encBytes t.hash

/-- Field-by-field parser for a serialized Transaction, returning the
unconsumed tail. -/
def decTransactionAux (l : List Nat) : Option (Transaction × List Nat) := do
  let (ty, l1) ← decStr l
  let (fr, l2) ← decOpt decStr l1
  let (toA, l3) ← decStr l2
  let (no, l4) ← decOpt decNat l3
  let (ci, l5) ← decNat l4
  let (da, l6) ← decBytes l5
  let (sg, l7) ← decOpt decSig l6
  let (ha, l8) ← decOpt decBytes l7
  pure (⟨ty, fr, toA, no, ci, da, sg, ha⟩, l8)

/-- Modelled from the spec: `transaction_from_string` — parse all eight fields
and reject any input with symbols left over, with a `DecodeError`. -/
def transaction_from_string (l : List Nat) : Except VdrError Transaction :=
  match decTransactionAux l with
  | some (t, []) => Except.ok t
  | _ => Except.error VdrError.decodeError

/-- Modelled from the spec: `transaction_endorsing_data_to_string` — serialize
every field of a TransactionEndorsingData in declaration order. -/
def transaction_endorsing_data_to_string (e : TransactionEndorsingData) : List Nat :=
  encStr e._to ++ encStr e._from ++ encOpt encNat e.nonce ++ encStr e.contract ++
    encStr e.method ++ encStr e.endorsing_method ++ encBytes e.params ++
    encOpt encSig e.signature

/-- Field-by-field parser for a serialized TransactionEndorsingData. -/
def decEndorsingAux (l : List Nat) : Option (TransactionEndorsingData × List Nat) := do
  let (toA, l1) ← decStr l
  let (fr, l2) ← decStr l1
  let (no, l3) ← decOpt decNat l2
  let (co, l4) ← decStr l3
  let (me, l5) ← decStr l4
  let (em, l6) ← decStr l5
  let (pa, l7) ← decBytes l6
  let (sg, l8) ← decOpt decSig l7
  pure (⟨toA, fr, no, co, me, em, pa, sg⟩, l8)

/-- Modelled from the spec: `transaction_endorsing_data_from_string` — parse
all eight fields and reject leftovers with a `DecodeError`. -/
def transaction_endorsing_data_from_string (l : List Nat) :
    Except VdrError TransactionEndorsingData :=
  match decEndorsingAux l with
  | some (e, []) => Except.ok e
  | _ => Except.error VdrError.decodeError

theorem decTransactionAux_enc (t : Transaction) (r : List Nat) :
    decTransactionAux (transaction_to_string t ++ r) = some (t, r) := by
  simp [decTransactionAux, transaction_to_string, List.append_assoc,
    decOpt_enc decStr encStr (fun a r => decStr_enc a r),
    decOpt_enc decNat encNat (fun a r => decNat_enc a r),
    decOpt_enc decSig encSig (fun a r => decSig_enc a r),
    decOpt_enc decBytes encBytes (fun a r => decBytes_enc a r)]

theorem decEndorsingAux_enc (e : TransactionEndorsingData) (r : List Nat) :
    decEndorsingAux (transaction_endorsing_data_to_string e ++ r) = some (e, r) := by
  simp [decEndorsingAux, transaction_endorsing_data_to_string, List.append_assoc,
    decOpt_enc decNat encNat (fun a r => decNat_enc a r),
    decOpt_enc decSig encSig (fun a r => decSig_enc a r)]

theorem decTransactionAux_ext : ParserExt decTransactionAux := by
  intro s d v r h
  simp only [decTransactionAux, Option.bind_eq_bind, Option.bind_eq_some, Option.pure_def,
    Option.some.injEq] at h
  obtain ⟨⟨ty, l1⟩, h1, ⟨fr, l2⟩, h2, ⟨toA, l3⟩, h3, ⟨no, l4⟩, h4, ⟨ci, l5⟩, h5,
    ⟨da, l6⟩, h6, ⟨sg, l7⟩, h7, ⟨ha, l8⟩, h8, h9⟩ := h
  dsimp only at h1 h2 h3 h4 h5 h6 h7 h8 h9
  rw [Prod.mk.injEq] at h9
  obtain ⟨hv, hr⟩ := h9
  subst hv hr
  simp [decTransactionAux, decStr_ext s d ty l1 h1,
    decOpt_ext decStr decStr_ext l1 d fr l2 h2, decStr_ext l2 d toA l3 h3,
    decOpt_ext decNat decNat_ext l3 d no l4 h4, decNat_ext l4 d ci l5 h5,
    decBytes_ext l5 d da l6 h6, decOpt_ext decSig decSig_ext l6 d sg l7 h7,
    decOpt_ext decBytes decBytes_ext l7 d ha l8 h8]

theorem decEndorsingAux_ext : ParserExt decEndorsingAux := by
  intro s d v r h
  simp only [decEndorsingAux, Option.bind_eq_bind, Option.bind_eq_some, Option.pure_def,
    Option.some.injEq] at h
  obtain ⟨⟨toA, l1⟩, h1, ⟨fr, l2⟩, h2, ⟨no, l3⟩, h3, ⟨co, l4⟩, h4, ⟨me, l5⟩, h5,
    ⟨em, l6⟩, h6, ⟨pa, l7⟩, h7, ⟨sg, l8⟩, h8, h9⟩ := h
  dsimp only at h1 h2 h3 h4 h5 h6 h7 h8 h9
  rw [Prod.mk.injEq] at h9
  obtain ⟨hv, hr⟩ := h9
  subst hv hr
  simp [decEndorsingAux, decStr_ext s d toA l1 h1, decStr_ext l1 d fr l2 h2,
    decOpt_ext decNat decNat_ext l2 d no l3 h3, decStr_ext l3 d co l4 h4,
    decStr_ext l4 d me l5 h5, decStr_ext l5 d em l6 h6, decBytes_ext l6 d pa l7 h7,
    decOpt_ext decSig decSig_ext l7 d sg l8 h8]

theorem transaction_round_trip (t : Transaction) :
    transaction_from_string (transaction_to_string t) = Except.ok t := by
  have h := decTransactionAux_enc t []
  rw [List.append_nil] at h
  simp [transaction_from_string, h]

theorem endorsing_round_trip (e : TransactionEndorsingData) :
    transaction_endorsing_data_from_string (transaction_endorsing_data_to_string e) =
      Except.ok e := by
  have h := decEndorsingAux_enc e []
  rw [List.append_nil] at h
  simp [transaction_endorsing_data_from_string, h]

theorem transaction_truncation_fails (t : Transaction) (s d : List Nat)
    (hd : d ≠ []) (hs : s ++ d = transaction_to_string t) :
    transaction_from_string s = Except.error VdrError.decodeError := by
  unfold transaction_from_string
  cases hp : decTransactionAux s with
  | none => simp
  | some p =>
    obtain ⟨u, r⟩ := p
    cases r with
    | cons x xs => simp
    | nil =>
      exfalso
      have hext := decTransactionAux_ext s d u [] hp
      rw [hs] at hext
      have henc := decTransactionAux_enc t []
      rw [List.append_nil] at henc
      rw [henc] at hext
      simp only [List.nil_append, Option.some.injEq, Prod.mk.injEq] at hext
      exact hd hext.2.symm

theorem endorsing_truncation_fails (e : TransactionEndorsingData) (s d : List Nat)
    (hd : d ≠ []) (hs : s ++ d = transaction_endorsing_data_to_string e) :
    transaction_endorsing_data_from_string s = Except.error VdrError.decodeError := by
  unfold transaction_endorsing_data_from_string
  cases hp : decEndorsingAux s with
  | none => simp
  | some p =>
    obtain ⟨u, r⟩ := p
    cases r with
    | cons x xs => simp
    | nil =>
      exfalso
      have hext := decEndorsingAux_ext s d u [] hp
      rw [hs] at hext
      have henc := decEndorsingAux_enc e []
      rw [List.append_nil] at henc
      rw [henc] at hext
      simp only [List.nil_append, Option.some.injEq, Prod.mk.injEq] at hext
      exact hd hext.2.symm

theorem transaction_from_string_total (s : List Nat) :
    transaction_from_string s = Except.error VdrError.decodeError ∨
      ∃ t, transaction_from_string s = Except.ok t := by
  unfold transaction_from_string
  cases hp : decTransactionAux s with
  | none => exact Or.inl rfl
  | some p =>
    obtain ⟨u, r⟩ := p
    cases r with
    | nil => exact Or.inr ⟨u, rfl⟩
    | cons x xs => exact Or.inl rfl

theorem endorsing_from_string_total (s : List Nat) :
    transaction_endorsing_data_from_string s = Except.error VdrError.decodeError ∨
      ∃ e, transaction_endorsing_data_from_string s = Except.ok e := by
  unfold transaction_endorsing_data_from_string
  cases hp : decEndorsingAux s with
  | none => exact Or.inl rfl
  | some p =>
    obtain ⟨u, r⟩ := p
    cases r with
    | nil => exact Or.inr ⟨u, rfl⟩
    | cons x xs => exact Or.inl rfl

/-! ### Signing bytes -/

/-- Modelled from the spec: `transaction_get_signing_bytes` — a deterministic
byte sequence derived from the unsigned fields {type, sender, recipient,
nonce, chain id, payload}, laid out canonically so that no field can be
confused with another. -/
def transaction_get_signing_bytes (t : Transaction) : List Nat :=
  encStr t.type ++ encOpt encStr t._from ++ encStr t._to ++ encOpt encNat t.nonce ++
    encNat t.chain_id ++ encBytes t.data

/-- Modelled from the spec: `transaction_endorsing_data_get_signing_bytes` —
computed purely from the envelope's unsigned fields. -/
def transaction_endorsing_data_get_signing_bytes (e : TransactionEndorsingData) : List Nat :=
  encStr e._to ++ encStr e._from ++ encOpt encNat e.nonce ++ encStr e.contract ++
    encStr e.method ++ encStr e.endorsing_method ++ encBytes e.params

/-- Parser recovering the six unsigned Transaction fields from signing bytes. -/
def decSigningAux (l : List Nat) :
    Option ((String × Option String × String × Option Nat × Nat × List Nat) × List Nat) := do
  let (ty, l1) ← decStr l
  let (fr, l2) ← decOpt decStr l1
  let (toA, l3) ← decStr l2
  let (no, l4) ← decOpt decNat l3
  let (ci, l5) ← decNat l4
  let (da, l6) ← decBytes l5
  pure ((ty, fr, toA, no, ci, da), l6)

@[simp] theorem decBytes_enc_nil (bs : List Nat) : decBytes (encBytes bs) = some (bs, []) := by
  have h := decBytes_enc bs []
  rwa [List.append_nil] at h

theorem decSigningAux_enc (t : Transaction) :
    decSigningAux (transaction_get_signing_bytes t) =
      some ((t.type, t._from, t._to, t.nonce, t.chain_id, t.data), []) := by
  have h : transaction_get_signing_bytes t =
      encStr t.type ++ (encOpt encStr t._from ++ (encStr t._to ++ (encOpt encNat t.nonce ++
        (encNat t.chain_id ++ (encBytes t.data ++ []))))) := by
    simp [transaction_get_signing_bytes]
  rw [h]
  simp [decSigningAux,
    decOpt_enc decStr encStr (fun a r => decStr_enc a r),
    decOpt_enc decNat encNat (fun a r => decNat_enc a r)]

theorem transaction_signing_bytes_inj (t1 t2 : Transaction)
    (h : transaction_get_signing_bytes t1 = transaction_get_signing_bytes t2) :
    t1.type = t2.type ∧ t1._from = t2._from ∧ t1._to = t2._to ∧
      t1.nonce = t2.nonce ∧ t1.chain_id = t2.chain_id ∧ t1.data = t2.data := by
  have h2 := congrArg decSigningAux h
  rw [decSigningAux_enc, decSigningAux_enc] at h2
  simp only [Option.some.injEq, Prod.mk.injEq] at h2
  tauto

/-- Sample Transaction value for concrete instantiations. -/
def sampleTransaction : Transaction :=
  ⟨"write", some "0xaa", "0xbb", some 7, 1337, [1, 2, 3], none, some [9]⟩

/-- Sample TransactionEndorsingData value for concrete instantiations. -/
def sampleEndorsingData : TransactionEndorsingData :=
  ⟨"0xbb", "0xaa", some 7, "EthereumDIDRegistry", "setAttribute", "setAttributeSigned",
    [4, 5], some ⟨1, [6]⟩⟩

/-- C1: serializing a Transaction or a TransactionEndorsingData with
`to_string` and deserializing with `from_string` yields the original envelope
field-for-field, including an unset signature and all payload bytes; a strict
truncation of a serialized envelope fails to deserialize with a `DecodeError`;
and deserialization of any input either fails with a `DecodeError` or
produces a fully populated envelope, never a partial one. -/
theorem C1_envelope_serialization_round_trip :
    (∀ t : Transaction, transaction_from_string (transaction_to_string t) = Except.ok t) ∧
    (∀ e : TransactionEndorsingData,
      transaction_endorsing_data_from_string (transaction_endorsing_data_to_string e) =
        Except.ok e) ∧
    (∀ (t : Transaction) (s d : List Nat), d ≠ [] → s ++ d = transaction_to_string t →
      transaction_from_string s = Except.error VdrError.decodeError) ∧
    (∀ (e : TransactionEndorsingData) (s d : List Nat), d ≠ [] →
      s ++ d = transaction_endorsing_data_to_string e →
      transaction_endorsing_data_from_string s = Except.error VdrError.decodeError) ∧
    (∀ s : List Nat, transaction_from_string s = Except.error VdrError.decodeError ∨
      ∃ t, transaction_from_string s = Except.ok t) :=
  ⟨transaction_round_trip, endorsing_round_trip,
    fun t s d hd hs => transaction_truncation_fails t s d hd hs,
    fun e s d hd hs => endorsing_truncation_fails e s d hd hs,
    transaction_from_string_total⟩

/-- C1 witness: the round trip, the truncation failure and the totality
dichotomy evaluated at concrete envelopes. -/
theorem C1_envelope_serialization_round_trip_witness :
    transaction_from_string (transaction_to_string sampleTransaction) =
        Except.ok sampleTransaction ∧
    transaction_endorsing_data_from_string
        (transaction_endorsing_data_to_string sampleEndorsingData) =
        Except.ok sampleEndorsingData ∧
    transaction_from_string [0, 0, 0, 0, 0, 0, 0] = Except.error VdrError.decodeError ∧
    transaction_endorsing_data_from_string [0, 0, 0, 0, 0, 0, 0] =
        Except.error VdrError.decodeError :=
  ⟨C1_envelope_serialization_round_trip.1 sampleTransaction,
    C1_envelope_serialization_round_trip.2.1 sampleEndorsingData,
    C1_envelope_serialization_round_trip.2.2.1 ⟨"", none, "", none, 0, [], none, none⟩
      [0, 0, 0, 0, 0, 0, 0] [0] (by decide) (by decide),
    C1_envelope_serialization_round_trip.2.2.2.1 ⟨"", "", none, "", "", "", [], none⟩
      [0, 0, 0, 0, 0, 0, 0] [0] (by decide) (by decide)⟩

/-- C2: signing bytes are pure and deterministic for both envelope types —
repeated calls without mutation yield identical bytes — and two Transactions
whose signing bytes coincide agree on sender, recipient, nonce, chain id and
payload, so differing in any one of those fields forces different signing
bytes. -/
theorem C2_signing_bytes_deterministic_and_field_sensitive :
    (∀ t : Transaction,
      transaction_get_signing_bytes t = transaction_get_signing_bytes t) ∧
    (∀ e : TransactionEndorsingData,
      transaction_endorsing_data_get_signing_bytes e =
        transaction_endorsing_data_get_signing_bytes e) ∧
    (∀ t1 t2 : Transaction,
      transaction_get_signing_bytes t1 = transaction_get_signing_bytes t2 →
      t1._from = t2._from ∧ t1._to = t2._to ∧ t1.nonce = t2.nonce ∧
        t1.chain_id = t2.chain_id ∧ t1.data = t2.data) :=
  ⟨fun _ => rfl, fun _ => rfl,
    fun t1 t2 h => (transaction_signing_bytes_inj t1 t2 h).2⟩

/-- C2 witness: determinism and field agreement evaluated at a concrete
Transaction, the equal-signing-bytes hypothesis discharged by rfl. -/
theorem C2_signing_bytes_witness :
    transaction_get_signing_bytes sampleTransaction =
        transaction_get_signing_bytes sampleTransaction ∧
    transaction_endorsing_data_get_signing_bytes sampleEndorsingData =
        transaction_endorsing_data_get_signing_bytes sampleEndorsingData ∧
    sampleTransaction._from = sampleTransaction._from ∧
    sampleTransaction._to = sampleTransaction._to ∧
    sampleTransaction.nonce = sampleTransaction.nonce ∧
    sampleTransaction.chain_id = sampleTransaction.chain_id ∧
    sampleTransaction.data = sampleTransaction.data :=
  ⟨C2_signing_bytes_deterministic_and_field_sensitive.1 sampleTransaction,
    C2_signing_bytes_deterministic_and_field_sensitive.2.1 sampleEndorsingData,
    C2_signing_bytes_deterministic_and_field_sensitive.2.2 sampleTransaction
      sampleTransaction rfl⟩

/-- C10: set_signature always succeeds on both envelope types — overwriting
any previously attached signature — and changes no field other than the
signature: type, sender, recipient, nonce, chain id, payload and the stored
hash are untouched by the call itself. -/
theorem C10_set_signature_frame :
    (∀ (t : Transaction) (sig : SignatureData),
      (t.set_signature sig).signature = some sig ∧
      (t.set_signature sig).type = t.type ∧
      (t.set_signature sig)._from = t._from ∧
      (t.set_signature sig)._to = t._to ∧
      (t.set_signature sig).nonce = t.nonce ∧
      (t.set_signature sig).chain_id = t.chain_id ∧
      (t.set_signature sig).data = t.data ∧
      (t.set_signature sig).hash = t.hash) ∧
    (∀ (t : Transaction) (sig1 sig2 : SignatureData),
      ((t.set_signature sig1).set_signature sig2).signature = some sig2) ∧
    (∀ (e : TransactionEndorsingData) (sig : SignatureData),
      (e.set_signature sig).signature = some sig ∧
      (e.set_signature sig)._to = e._to ∧
      (e.set_signature sig)._from = e._from ∧
      (e.set_signature sig).nonce = e.nonce ∧
      (e.set_signature sig).contract = e.contract ∧
      (e.set_signature sig).method = e.method ∧
      (e.set_signature sig).endorsing_method = e.endorsing_method ∧
      (e.set_signature sig).params = e.params) ∧
    (∀ (e : TransactionEndorsingData) (sig1 sig2 : SignatureData),
      ((e.set_signature sig1).set_signature sig2).signature = some sig2) :=
  ⟨fun _ _ => ⟨rfl, rfl, rfl, rfl, rfl, rfl, rfl, rfl⟩,
    fun _ _ _ => rfl,
    fun _ _ => ⟨rfl, rfl, rfl, rfl, rfl, rfl, rfl, rfl⟩,
    fun _ _ _ => rfl⟩

/-! ### The Python binding-layer constructor and the resolve-credential-definition builder -/

/-- A Python value as it appears at the wrapper/binding boundary. -/
inductive PyObj where
  | str (s : String)
  | nat (n : Nat)
  | bytes (l : List Nat)
  | sig (s : SignatureData)
  | none
  | txn (t : Transaction)
  deriving DecidableEq, Repr

/-- Coerce a Python value to a string field. -/
def PyObj.asStr : PyObj → Except PyError String
  | .str s => .ok s
  | _ => .error .typeError

/-- Coerce a Python value to an optional string field. -/
def PyObj.asOptStr : PyObj → Except PyError (Option String)
  | .none => .ok Option.none
  | .str s => .ok (some s)
  | _ => .error .typeError

/-- Coerce a Python value to a natural-number field. -/
def PyObj.asNat : PyObj → Except PyError Nat
  | .nat n => .ok n
  | _ => .error .typeError

/-- Coerce a Python value to an optional natural-number field. -/
def PyObj.asOptNat : PyObj → Except PyError (Option Nat)
  | .none => .ok Option.none
  | .nat n => .ok (some n)
  | _ => .error .typeError

/-- Coerce a Python value to a byte-sequence field. -/
def PyObj.asBytes : PyObj → Except PyError (List Nat)
  | .bytes l => .ok l
  | _ => .error .typeError

/-- Coerce a Python value to an optional byte-sequence field. -/
def PyObj.asOptBytes : PyObj → Except PyError (Option (List Nat))
  | .none => .ok Option.none
  | .bytes l => .ok (some l)
  | _ => .error .typeError

/-- Coerce a Python value to an optional signature field. -/
def PyObj.asOptSig : PyObj → Except PyError (Option SignatureData)
  | .none => .ok Option.none
  | .sig s => .ok (some s)
  | _ => .error .typeError

/-- Modelled from the spec: the binding-layer Transaction constructor.  It
takes the eight record fields positionally in declaration order — the arity
and order `Transaction.init` exhibits (`types.py` lines 28-37) — and a call
with the wrong number of positional arguments raises a Python `TypeError`. -/
def pyTransactionCtor : List PyObj → Except PyError Transaction
  | [a1, a2, a3, a4, a5, a6, a7, a8] => do
    let ty ← a1.asStr
    let fr ← a2.asOptStr
    let toA ← a3.asStr
    let no ← a4.asOptNat
    let ci ← a5.asNat
    let da ← a6.asBytes
    let sg ← a7.asOptSig
    let ha ← a8.asOptBytes
    pure ⟨ty, fr, toA, no, ci, da, sg, ha⟩
  | _ => .error .typeError

/-- Render an optional string the way `Transaction.init` passes it. -/
def optStrObj : Option String → PyObj
  | Option.none => .none
  | some s => .str s

/-- Render an optional natural the way `Transaction.init` passes it. -/
def optNatObj : Option Nat → PyObj
  | Option.none => .none
  | some n => .nat n

/-- Render an optional byte sequence the way `Transaction.init` passes it. -/
def optBytesObj : Option (List Nat) → PyObj
  | Option.none => .none
  | some l => .bytes l

/-- Render an optional signature the way `Transaction.init` passes it. -/
def optSigObj : Option SignatureData → PyObj
  | Option.none => .none
  | some s => .sig s

/-- The eight positional arguments `Transaction.init` hands the constructor
(`types.py` lines 28-37). -/
def transactionCtorArgs (t : Transaction) : List PyObj :=
  [.str t.type, optStrObj t._from, .str t._to, optNatObj t.nonce, .nat t.chain_id,
    .bytes t.data, optSigObj t.signature, optBytesObj t.hash]

/-- `SchemaRegistry.build_resolve_schema_transaction` (`types.py` lines
250-252): wraps the inner transaction produced by the underlying builder via
`Transaction.init`. -/
def build_resolve_schema_transaction (inner : Transaction) : Transaction :=
  Transaction.init inner

/-- `CredentialDefinitionRegistry.build_resolve_credential_definition_transaction`
(`types.py` lines 302-304): passes the whole inner transaction as the single
positional constructor argument — `Transaction(inner)` — instead of copying
its fields with `Transaction.init`. -/
def build_resolve_credential_definition_transaction (inner : Transaction) :
    Except PyError Transaction :=
  pyTransactionCtor [.txn inner]

theorem pyTransactionCtor_init (t : Transaction) :
    pyTransactionCtor (transactionCtorArgs t) = Except.ok t := by
  cases t with
  | mk ty fr toA no ci da sg ha =>
    cases fr <;> cases no <;> cases sg <;> cases ha <;> rfl

/-- C5: the resolve-credential-definition read builder diverges from the
claim.  Every other read builder copies the eight fields of the underlying
builder's transaction through `Transaction.init` (shown for
`build_resolve_schema_transaction` and for the constructor applied to the
eight `init` arguments), but `build_resolve_credential_definition_transaction`
passes the inner transaction as the sole positional constructor argument, so
the call raises a Python `TypeError` instead of returning a field-for-field
copy. -/
theorem C5_resolve_credential_definition_builder_divergence :
    build_resolve_credential_definition_transaction sampleTransaction =
        Except.error PyError.typeError ∧
    build_resolve_schema_transaction sampleTransaction = sampleTransaction ∧
    (∀ t : Transaction, pyTransactionCtor (transactionCtorArgs t) = Except.ok t) ∧
    (∀ t : Transaction, build_resolve_credential_definition_transaction t =
        Except.error PyError.typeError) :=
  ⟨rfl, rfl, pyTransactionCtor_init, fun _ => rfl⟩

/-! ### Attribute payloads of the DidEthrRegistry builders -/

/-- JSON escaping of a single character as `json.dumps` performs it. -/
def jsonEscapeChar (c : Char) : List Char :=
  if c = '"' then ['\\', '"']
  else if c = '\\' then ['\\', '\\']
  else [c]

/-- Python's `json.dumps` applied to a string value: the escaped characters
wrapped in double quotes. -/
def pyJsonDumpsStr (s : String) : String :=
  ⟨'"' :: (s.data.flatMap jsonEscapeChar ++ ['"'])⟩

/-- Attribute payload `DidEthrRegistry.build_did_set_attribute_transaction`
passes to the underlying encoder (`types.py` lines 140-144): the argument
unchanged. -/
def build_did_set_attribute_transaction_payload (attr : String) : String :=
  attr

/-- Attribute payload `DidEthrRegistry.build_did_set_attribute_endorsing_data`
passes to the underlying encoder (`types.py` lines 146-150):
`json.dumps(attribute)`. -/
def build_did_set_attribute_endorsing_data_payload (attr : String) : String :=
  pyJsonDumpsStr attr

/-- Attribute payload `DidEthrRegistry.build_did_revoke_attribute_transaction`
passes to the underlying encoder (`types.py` lines 152-156):
`json.dumps(attribute)`. -/
def build_did_revoke_attribute_transaction_payload (attr : String) : String :=
  pyJsonDumpsStr attr

/-- Attribute payload
`DidEthrRegistry.build_did_revoke_attribute_endorsing_data` passes to the
underlying encoder (`types.py` lines 158-162): the argument unchanged. -/
def build_did_revoke_attribute_endorsing_data_payload (attr : String) : String :=
  attr

theorem jsonEscape_length_ge (l : List Char) : l.length ≤ (l.flatMap jsonEscapeChar).length := by
  induction l with
  | nil => simp
  | cons c t ih =>
    have hc : 1 ≤ (jsonEscapeChar c).length := by
      unfold jsonEscapeChar
      split <;> try simp
      split <;> simp
    simp only [List.flatMap_cons, List.length_append, List.length_cons]
    omega

theorem pyJsonDumpsStr_ne (s : String) : pyJsonDumpsStr s ≠ s := by
  intro h
  have hlen := congrArg (fun x : String => x.data.length) h
  simp only [pyJsonDumpsStr, List.length_cons, List.length_append, List.length_cons,
    List.length_nil] at hlen
  have := jsonEscape_length_ge s.data
  omega

/-- C4 counterexample: given the same attribute value "a", the set-attribute
transaction builder passes "a" to the underlying encoder while the
set-attribute endorsing-data builder passes the JSON serialization,
so the two payloads differ — refuting the claim as stated. -/
theorem C4_attribute_payload_counterexample :
    build_did_set_attribute_transaction_payload "a" ≠
      build_did_set_attribute_endorsing_data_payload "a" := by
  decide

/-- C4 (amended): within each attribute builder pair one side applies
`json.dumps` and the other forwards its argument unchanged — the transaction
form forwards raw and the endorsing form serializes for set-attribute, and
the roles are swapped for revoke-attribute — so the two forms hand the
underlying encoder the same payload exactly when one is given the JSON
serialization of the other's argument, and never when both are given the
literally identical attribute value. -/
theorem C4_attribute_payload_relation :
    (∀ a : String, build_did_set_attribute_endorsing_data_payload a =
      pyJsonDumpsStr (build_did_set_attribute_transaction_payload a)) ∧
    (∀ a : String, build_did_revoke_attribute_transaction_payload a =
      pyJsonDumpsStr (build_did_revoke_attribute_endorsing_data_payload a)) ∧
    (∀ a : String, build_did_set_attribute_transaction_payload (pyJsonDumpsStr a) =
      build_did_set_attribute_endorsing_data_payload a) ∧
    (∀ a : String, build_did_revoke_attribute_transaction_payload a =
      build_did_revoke_attribute_endorsing_data_payload (pyJsonDumpsStr a)) ∧
    (∀ a : String, build_did_set_attribute_transaction_payload a ≠
      build_did_set_attribute_endorsing_data_payload a) ∧
    (∀ a : String, build_did_revoke_attribute_transaction_payload a ≠
      build_did_revoke_attribute_endorsing_data_payload a) :=
  ⟨fun _ => rfl, fun _ => rfl, fun _ => rfl, fun _ => rfl,
    fun a h => pyJsonDumpsStr_ne a h.symm,
    fun a h => pyJsonDumpsStr_ne a h⟩

/-- C4 witness: the payload relation evaluated at a concrete attribute
value. -/
theorem C4_attribute_payload_relation_witness :
    build_did_set_attribute_endorsing_data_payload "a" =
      pyJsonDumpsStr (build_did_set_attribute_transaction_payload "a") ∧
    build_did_set_attribute_transaction_payload (pyJsonDumpsStr "a") =
      build_did_set_attribute_endorsing_data_payload "a" ∧
    build_did_set_attribute_transaction_payload "a" ≠
      build_did_set_attribute_endorsing_data_payload "a" ∧
    build_did_revoke_attribute_transaction_payload "a" ≠
      build_did_revoke_attribute_endorsing_data_payload "a" :=
  ⟨C4_attribute_payload_relation.1 "a",
    C4_attribute_payload_relation.2.2.1 "a",
    C4_attribute_payload_relation.2.2.2.2.1 "a",
    C4_attribute_payload_relation.2.2.2.2.2 "a"⟩

/-! ### Endorsement builder -/

/-- Modelled from the spec: the Ledger Client as the endorsement builder sees
it — a configured chain identifier and the current on-chain nonce of each
account, fetched freshly when a builder needs one. -/
structure LedgerClient where
  chain_id : Nat
  nonces : String → Nat

/-- Modelled from the spec: re-encoding of the endorsing method call with the
identity's signature embedded as a parameter, so the contract can recover and
verify the original signer on-chain. -/
def encodeEndorsementCall (e : TransactionEndorsingData) (sig : SignatureData) : List Nat :=
  encStr e.endorsing_method ++ e.params ++ encSig sig

/-- Modelled from the spec: `build_endorsement_transaction` (the native
builder behind `Endorsement.build_endorsement_transaction`, `types.py` lines
365-369).  Fails with `MissingSignatureError` when the endorsing envelope has
no attached signature and with `ChainMismatchError` when the envelope's
implied chain differs from the client's configured chain id; the derivation
of the implied chain is not under `src/`, so the builder is parametrized by
it.  On success it sets the sender to the sponsor, resolves a fresh nonce for
the sponsor and leaves the new Transaction unsigned. -/
def build_endorsement_transaction (implied : TransactionEndorsingData → Nat)
    (client : LedgerClient) (_from : String) (endorsement_data : TransactionEndorsingData) :
    Except VdrError Transaction :=
  match endorsement_data.signature with
  | Option.none => .error .missingSignatureError
  | some sig =>
    if implied endorsement_data = client.chain_id then
      .ok ⟨"write", some _from, endorsement_data._to, some (client.nonces _from),
        client.chain_id, encodeEndorsementCall endorsement_data sig, Option.none, Option.none⟩
    else .error .chainMismatchError

/-- C3: for every client, sponsor and endorsing envelope,
`build_endorsement_transaction` fails with `MissingSignatureError` when no
signature is attached, fails with `ChainMismatchError` when a signature is
attached but the envelope's implied chain differs from the client's chain id,
and on success returns a Transaction whose sender is the sponsor, whose nonce
is the freshly resolved nonce of the sponsor, and which carries no
signature. -/
theorem C3_build_endorsement_transaction_contract :
    ∀ (implied : TransactionEndorsingData → Nat) (client : LedgerClient)
      (sponsor : String) (ed : TransactionEndorsingData),
    (ed.signature = Option.none →
      build_endorsement_transaction implied client sponsor ed =
        Except.error VdrError.missingSignatureError) ∧
    (ed.signature ≠ Option.none → implied ed ≠ client.chain_id →
      build_endorsement_transaction implied client sponsor ed =
        Except.error VdrError.chainMismatchError) ∧
    (∀ t : Transaction,
      build_endorsement_transaction implied client sponsor ed = Except.ok t →
      t._from = some sponsor ∧ t.nonce = some (client.nonces sponsor) ∧
        t.signature = Option.none ∧ t.chain_id = client.chain_id) := by
  intro implied client sponsor ed
  refine ⟨fun hn => ?_, fun hs hm => ?_, fun t ht => ?_⟩
  · simp [build_endorsement_transaction, hn]
  · cases hsig : ed.signature with
    | none => exact absurd hsig hs
    | some sig => simp [build_endorsement_transaction, hsig, hm]
  · cases hsig : ed.signature with
    | none => simp [build_endorsement_transaction, hsig] at ht
    | some sig =>
      simp only [build_endorsement_transaction, hsig] at ht
      by_cases hm : implied ed = client.chain_id
      · rw [if_pos hm] at ht
        cases ht
        exact ⟨rfl, rfl, rfl, hm.symm ▸ rfl⟩
      · rw [if_neg hm] at ht
        cases ht

/-- C3 witness: the three branches evaluated at concrete clients, sponsors and
endorsing envelopes. -/
theorem C3_build_endorsement_transaction_witness :
    build_endorsement_transaction (fun _ => 1) ⟨1, fun _ => 5⟩ "0xsp"
        ⟨"0xbb", "0xaa", some 7, "c", "m", "em", [4], Option.none⟩ =
      Except.error VdrError.missingSignatureError ∧
    build_endorsement_transaction (fun _ => 2) ⟨1, fun _ => 5⟩ "0xsp"
        sampleEndorsingData = Except.error VdrError.chainMismatchError ∧
    (⟨"write", some "0xsp", "0xbb", some 5, 1,
        encodeEndorsementCall sampleEndorsingData ⟨1, [6]⟩, Option.none,
        Option.none⟩ : Transaction)._from = some "0xsp" ∧
    (⟨"write", some "0xsp", "0xbb", some 5, 1,
        encodeEndorsementCall sampleEndorsingData ⟨1, [6]⟩, Option.none,
        Option.none⟩ : Transaction).nonce = some 5 ∧
    (⟨"write", some "0xsp", "0xbb", some 5, 1,
        encodeEndorsementCall sampleEndorsingData ⟨1, [6]⟩, Option.none,
        Option.none⟩ : Transaction).signature = Option.none := by
  refine ⟨?_, ?_, ?_, ?_, ?_⟩
  · exact (C3_build_endorsement_transaction_contract (fun _ => 1) ⟨1, fun _ => 5⟩ "0xsp"
      ⟨"0xbb", "0xaa", some 7, "c", "m", "em", [4], Option.none⟩).1 rfl
  · exact (C3_build_endorsement_transaction_contract (fun _ => 2) ⟨1, fun _ => 5⟩ "0xsp"
      sampleEndorsingData).2.1 (by simp [sampleEndorsingData]) (by simp)
  · exact ((C3_build_endorsement_transaction_contract (fun _ => 1) ⟨1, fun _ => 5⟩ "0xsp"
      sampleEndorsingData).2.2 _ rfl).1
  · exact ((C3_build_endorsement_transaction_contract (fun _ => 1) ⟨1, fun _ => 5⟩ "0xsp"
      sampleEndorsingData).2.2 _ rfl).2.1
  · exact ((C3_build_endorsement_transaction_contract (fun _ => 1) ⟨1, fun _ => 5⟩ "0xsp"
      sampleEndorsingData).2.2 _ rfl).2.2.1

/-! ### Schema and CredentialDefinition -/

/-- Schema record (`types.py` lines 216-218): issuer_id, name, version,
attr_names. -/
structure Schema where
  issuer_id : String
  name : String
  version : String
  attr_names : List String
  deriving DecidableEq, Repr

/-- CredentialDefinition record (`types.py` lines 263-265): issuer_id,
schema_id, cred_def_type, tag, value. -/
structure CredentialDefinition where
  issuer_id : String
  schema_id : String
  cred_def_type : String
  tag : String
  value : String
  deriving DecidableEq, Repr

/-- Modelled from the spec: `schema_get_id` — the content-derived Schema
identifier, computed deterministically from the record's own fields. -/
def schema_get_id (s : Schema) : String :=
  s.issuer_id ++ "/anoncreds/v0/SCHEMA/" ++ s.name ++ "/" ++ s.version

/-- Modelled from the spec: `credential_definition_get_id` — the
content-derived CredentialDefinition identifier, computed deterministically
from the record's own fields. -/
def credential_definition_get_id (c : CredentialDefinition) : String :=
  c.issuer_id ++ "/anoncreds/v0/CLAIM_DEF/" ++ c.schema_id ++ "/" ++ c.tag

/-- C7: the content-derived identifiers of Schema and CredentialDefinition
are deterministic functions of the content fields alone — two records built
from the same field values always yield the same identifier string. -/
theorem C7_content_derived_ids_deterministic :
    (∀ s1 s2 : Schema, s1.issuer_id = s2.issuer_id → s1.name = s2.name →
      s1.version = s2.version → s1.attr_names = s2.attr_names →
      schema_get_id s1 = schema_get_id s2) ∧
    (∀ c1 c2 : CredentialDefinition, c1.issuer_id = c2.issuer_id →
      c1.schema_id = c2.schema_id → c1.cred_def_type = c2.cred_def_type →
      c1.tag = c2.tag → c1.value = c2.value →
      credential_definition_get_id c1 = credential_definition_get_id c2) := by
  constructor
  · intro s1 s2 h1 h2 h3 _
    simp [schema_get_id, h1, h2, h3]
  · intro c1 c2 h1 h2 _ h4 _
    simp [credential_definition_get_id, h1, h2, h4]

/-- C7 witness: identifier stability evaluated on two separately constructed
copies of the same concrete field values. -/
theorem C7_content_derived_ids_witness :
    schema_get_id ⟨"did:ethr:0xaa", "degree", "1.0", ["name"]⟩ =
      schema_get_id ⟨"did:ethr:0xaa", "degree", "1.0", ["name"]⟩ ∧
    credential_definition_get_id ⟨"did:ethr:0xaa", "sid", "CL", "tag1", "v"⟩ =
      credential_definition_get_id ⟨"did:ethr:0xaa", "sid", "CL", "tag1", "v"⟩ :=
  ⟨C7_content_derived_ids_deterministic.1 ⟨"did:ethr:0xaa", "degree", "1.0", ["name"]⟩
      ⟨"did:ethr:0xaa", "degree", "1.0", ["name"]⟩ rfl rfl rfl rfl,
    C7_content_derived_ids_deterministic.2 ⟨"did:ethr:0xaa", "sid", "CL", "tag1", "v"⟩
      ⟨"did:ethr:0xaa", "sid", "CL", "tag1", "v"⟩ rfl rfl rfl rfl rfl⟩

/-! ### Resolution with integrity re-validation -/

/-- A network interaction performed by a registry operation. -/
inductive NetCall where
  | readCall (id : String)
  | nonceFetch (account : String)
  deriving DecidableEq, Repr

/-- Modelled from the spec: `resolve_schema` — one read call for the
requested id, then re-validation of the returned record's content-derived
identifier against the requested id; a mismatch fails with `IntegrityError`
instead of returning the record.  The ledger read is abstracted as a response
function from requested id to returned record. -/
def resolve_schema (read : String → Schema) (id : String) :
    Except VdrError Schema × List NetCall :=
  let s := read id
  (if schema_get_id s = id then .ok s else .error .integrityError, [.readCall id])

/-- Modelled from the spec: `resolve_credential_definition` — same single
read and identifier re-validation for credential definitions. -/
def resolve_credential_definition (read : String → CredentialDefinition) (id : String) :
    Except VdrError CredentialDefinition × List NetCall :=
  let c := read id
  (if credential_definition_get_id c = id then .ok c else .error .integrityError,
    [.readCall id])

/-- C8: resolve_schema and resolve_credential_definition perform exactly one
read call, return the read record when its content-derived identifier equals
the requested id, and fail with `IntegrityError` instead of returning a
record whose identifier mismatches. -/
theorem C8_resolve_revalidates_content_id :
    ∀ id : String,
    (∀ read : String → Schema,
      (resolve_schema read id).2 = [NetCall.readCall id] ∧
      (schema_get_id (read id) = id →
        (resolve_schema read id).1 = Except.ok (read id)) ∧
      (schema_get_id (read id) ≠ id →
        (resolve_schema read id).1 = Except.error VdrError.integrityError)) ∧
    (∀ read : String → CredentialDefinition,
      (resolve_credential_definition read id).2 = [NetCall.readCall id] ∧
      (credential_definition_get_id (read id) = id →
        (resolve_credential_definition read id).1 = Except.ok (read id)) ∧
      (credential_definition_get_id (read id) ≠ id →
        (resolve_credential_definition read id).1 =
          Except.error VdrError.integrityError)) := by
  intro id
  constructor
  · intro read
    refine ⟨rfl, fun h => ?_, fun h => ?_⟩
    · simp [resolve_schema, h]
    · simp [resolve_schema, h]
  · intro read
    refine ⟨rfl, fun h => ?_, fun h => ?_⟩
    · simp [resolve_credential_definition, h]
    · simp [resolve_credential_definition, h]

/-- C8 witness: the matching and mismatching branches evaluated at concrete
records and ids. -/
theorem C8_resolve_revalidates_witness :
    (resolve_schema (fun _ => ⟨"i", "n", "v", []⟩) "i/anoncreds/v0/SCHEMA/n/v").1 =
        Except.ok ⟨"i", "n", "v", []⟩ ∧
    (resolve_schema (fun _ => ⟨"i", "n", "v", []⟩) "wrong").1 =
        Except.error VdrError.integrityError ∧
    (resolve_credential_definition (fun _ => ⟨"i", "s", "CL", "t", "x"⟩) "wrong").1 =
        Except.error VdrError.integrityError ∧
    (resolve_schema (fun _ => ⟨"i", "n", "v", []⟩) "wrong").2 =
        [NetCall.readCall "wrong"] :=
  ⟨((C8_resolve_revalidates_content_id "i/anoncreds/v0/SCHEMA/n/v").1
      (fun _ => ⟨"i", "n", "v", []⟩)).2.1 (by decide),
    ((C8_resolve_revalidates_content_id "wrong").1
      (fun _ => ⟨"i", "n", "v", []⟩)).2.2 (by decide),
    ((C8_resolve_revalidates_content_id "wrong").2
      (fun _ => ⟨"i", "s", "CL", "t", "x"⟩)).2.2 (by decide),
    ((C8_resolve_revalidates_content_id "wrong").1
      (fun _ => ⟨"i", "n", "v", []⟩)).1⟩

/-! ### Local argument validation in the builders -/

/-- Whether the first character list starts the second. -/
def charsStartWith : List Char → List Char → Bool
  | [], _ => true
  | _ :: _, [] => false
  | c :: cs, d :: ds => (c = d) && charsStartWith cs ds

/-- Modelled from the spec: validity of a DID argument for the DID-Indy
registry — non-empty and carrying the expected method scheme. -/
def validIndyDid (did : String) : Bool :=
  decide (did ≠ "") && charsStartWith "did:indy".data did.data

/-- Modelled from the spec: ABI-style encoding of the createDid call payload. -/
def encodeCreateDid (did didDoc : String) : List Nat :=
  encStr "createDid" ++ encStr did ++ encStr didDoc

/-- Modelled from the spec: `build_create_did_transaction`
(`DidIndyRegistry.build_create_did_transaction`, `types.py` lines 69-71) —
validates the DID argument locally and fails fast with
`InvalidArgumentError`, performing no network interaction; only for a valid
DID does it resolve a nonce for the sender and encode the call. -/
def build_create_did_transaction (client : LedgerClient) (_from did didDoc : String) :
    Except VdrError Transaction × List NetCall :=
  if validIndyDid did then
    (.ok ⟨"write", some _from, "IndyDidRegistry", some (client.nonces _from),
      client.chain_id, encodeCreateDid did didDoc, Option.none, Option.none⟩,
      [.nonceFetch _from])
  else (.error .invalidArgumentError, [])

/-- C9: an empty or wrongly prefixed DID argument makes the builder fail with
`InvalidArgumentError` before any network call — the network-call trace is
empty — and any network interaction the builder performs implies the
argument was valid, so an invalid argument is never encoded and sent to the
ledger. -/
theorem C9_builder_validates_before_network :
    ∀ (client : LedgerClient) (_from did didDoc : String),
    (validIndyDid did = false →
      build_create_did_transaction client _from did didDoc =
        (Except.error VdrError.invalidArgumentError, [])) ∧
    ((build_create_did_transaction client _from did didDoc).2 ≠ [] →
      validIndyDid did = true) := by
  intro client _from did didDoc
  constructor
  · intro h
    simp [build_create_did_transaction, h]
  · intro h
    by_contra hv
    rw [Bool.not_eq_true] at hv
    exact h (by simp [build_create_did_transaction, hv])

/-- C9 witness: the empty DID and a DID of the wrong scheme both fail fast
with no network call. -/
theorem C9_builder_validates_witness :
    build_create_did_transaction ⟨1, fun _ => 5⟩ "0xaa" "" "d" =
        (Except.error VdrError.invalidArgumentError, []) ∧
    build_create_did_transaction ⟨1, fun _ => 5⟩ "0xaa" "did:ethr:0xbb" "d" =
        (Except.error VdrError.invalidArgumentError, []) :=
  ⟨(C9_builder_validates_before_network ⟨1, fun _ => 5⟩ "0xaa" "" "d").1 (by decide),
    (C9_builder_validates_before_network ⟨1, fun _ => 5⟩ "0xaa" "did:ethr:0xbb" "d").1
      (by decide)⟩

/-! ### DID resolution by event folding

Modelled from the spec: `resolve_did` (`DidResolver.resolve_did`, `types.py`
lines 210-213) is implemented in the native library.  The spec: order the
owner/attribute/delegate events by block/log position ascending, fold them
into a document where a later event overrides an earlier one for the same
key, and omit any attribute or delegate whose validity bound has elapsed
relative to the resolution point. -/

/-- The payload of a DID registry event. -/
inductive DidEventBody where
  | attr (key value : String) (validTo : Nat)
  | deleg (dtype delegate : String) (validTo : Nat)
  | owner (newOwner : String)
  deriving DecidableEq, Repr

/-- A DID registry event with its ledger position. -/
structure DidEvent where
  block : Nat
  logIndex : Nat
  body : DidEventBody
  deriving DecidableEq, Repr

/-- Ascending block/log-position order on events. -/
def posLE (a b : DidEvent) : Prop :=
  a.block < b.block ∨ (a.block = b.block ∧ a.logIndex ≤ b.logIndex)

instance : DecidableRel posLE := fun a b => by
  unfold posLE
  infer_instance

instance : IsTotal DidEvent posLE := by
  constructor
  intro a b
  unfold posLE
  omega

instance : IsTrans DidEvent posLE := by
  constructor
  intro a b c h1 h2
  unfold posLE at h1 h2 ⊢
  omega

/-- Events sorted by ascending block/log position. -/
def sortEvents (events : List DidEvent) : List DidEvent :=
  List.insertionSort posLE events

/-- Intermediate fold state: for each attribute key the last written value
and validity bound, likewise for delegates, and the last owner. -/
structure DidDocState where
  attrs : String → Option (String × Nat)
  delegs : String × String → Option Nat
  owner : Option String

/-- The state before any event is applied. -/
def emptyDocState : DidDocState :=
  ⟨fun _ => Option.none, fun _ => Option.none, Option.none⟩

/-- Apply one event to the fold state: its key is overwritten with the
event's data, every other key is untouched. -/
def applyEvent (d : DidDocState) (e : DidEvent) : DidDocState :=
  match e.body with
  | .attr k v vt =>
    { d with attrs := fun k' => if k' = k then some (v, vt) else d.attrs k' }
  | .deleg ty dl vt =>
    { d with delegs := fun p => if p = (ty, dl) then some vt else d.delegs p }
  | .owner o => { d with owner := some o }

/-- The resolved DID document: surviving attribute values, active delegates,
current owner. -/
structure DidDocument where
  attrs : String → Option String
  delegActive : String × String → Bool
  owner : Option String

/-- Modelled from the spec: `resolve_did` — fold the events in ascending
block/log-position order, then drop every attribute and delegate whose
validity bound lies before the resolution point `now`. -/
def resolve_did (now : Nat) (events : List DidEvent) : DidDocument :=
  let st := (sortEvents events).foldl applyEvent emptyDocState
  { attrs := fun k =>
      match st.attrs k with
      | some (v, vt) => if now ≤ vt then some v else Option.none
      | Option.none => Option.none,
    delegActive := fun p =>
      match st.delegs p with
      | some vt => decide (now ≤ vt)
      | Option.none => false,
    owner := st.owner }

/-- One step of the per-key attribute trace: an attribute event for the key
replaces the accumulator, everything else leaves it. -/
def attrStep (k : String) (acc : Option (String × Nat)) (e : DidEvent) :
    Option (String × Nat) :=
  match e.body with
  | .attr k' v vt => if k = k' then some (v, vt) else acc
  | _ => acc

/-- The last attribute event for a key in a list, with its validity bound. -/
def lastAttr (k : String) (l : List DidEvent) : Option (String × Nat) :=
  l.foldl (attrStep k) Option.none

/-- One step of the per-delegate trace. -/
def delegStep (p : String × String) (acc : Option Nat) (e : DidEvent) : Option Nat :=
  match e.body with
  | .deleg ty dl vt => if p = (ty, dl) then some vt else acc
  | _ => acc

/-- The last delegate event for a (type, delegate) pair in a list. -/
def lastDeleg (p : String × String) (l : List DidEvent) : Option Nat :=
  l.foldl (delegStep p) Option.none

/-- One step of the owner trace. -/
def ownerStep (acc : Option String) (e : DidEvent) : Option String :=
  match e.body with
  | .owner o => some o
  | _ => acc

/-- The last owner-change event in a list. -/
def lastOwner (l : List DidEvent) : Option String :=
  l.foldl ownerStep Option.none

theorem foldl_attrs (k : String) :
    ∀ (l : List DidEvent) (d : DidDocState),
      (l.foldl applyEvent d).attrs k = l.foldl (attrStep k) (d.attrs k)
  | [], _ => rfl
  | e :: t, d => by
    rw [List.foldl_cons, List.foldl_cons, foldl_attrs k t]
    congr 1
    cases hb : e.body with
    | attr k' v vt => simp only [applyEvent, attrStep, hb]
    | deleg ty dl vt => simp [applyEvent, attrStep, hb]
    | owner o => simp [applyEvent, attrStep, hb]

theorem foldl_delegs (p : String × String) :
    ∀ (l : List DidEvent) (d : DidDocState),
      (l.foldl applyEvent d).delegs p = l.foldl (delegStep p) (d.delegs p)
  | [], _ => rfl
  | e :: t, d => by
    rw [List.foldl_cons, List.foldl_cons, foldl_delegs p t]
    congr 1
    cases hb : e.body with
    | attr k' v vt => simp [applyEvent, delegStep, hb]
    | deleg ty dl vt => simp only [applyEvent, delegStep, hb]
    | owner o => simp [applyEvent, delegStep, hb]

theorem foldl_owner :
    ∀ (l : List DidEvent) (d : DidDocState),
      (l.foldl applyEvent d).owner = l.foldl ownerStep d.owner
  | [], _ => rfl
  | e :: t, d => by
    rw [List.foldl_cons, List.foldl_cons, foldl_owner t]
    congr 1
    cases hb : e.body with
    | attr k' v vt => simp [applyEvent, ownerStep, hb]
    | deleg ty dl vt => simp [applyEvent, ownerStep, hb]
    | owner o => simp [applyEvent, ownerStep, hb]

/-- C6: resolve_did folds the events in strictly ascending block/log-position
order — the folded list is a sorted permutation of the returned events — a
later event overrides an earlier one for the same attribute key, delegate
pair or owner slot (each resolved entry equals the last matching event in the
sorted order), and any attribute or delegate whose validity bound has elapsed
relative to the resolution point is omitted from the final document. -/
theorem C6_resolve_did_event_fold :
    ∀ (now : Nat) (events : List DidEvent),
    List.Sorted posLE (sortEvents events) ∧
    (sortEvents events).Perm events ∧
    (∀ k : String, (resolve_did now events).attrs k =
      match lastAttr k (sortEvents events) with
      | some (v, vt) => if now ≤ vt then some v else Option.none
      | Option.none => Option.none) ∧
    (∀ p : String × String, (resolve_did now events).delegActive p =
      match lastDeleg p (sortEvents events) with
      | some vt => decide (now ≤ vt)
      | Option.none => false) ∧
    (resolve_did now events).owner = lastOwner (sortEvents events) := by
  intro now events
  refine ⟨List.sorted_insertionSort posLE events, List.perm_insertionSort posLE events,
    fun k => ?_, fun p => ?_, ?_⟩
  · simp only [resolve_did, lastAttr]
    rw [foldl_attrs k (sortEvents events) emptyDocState]
    rfl
  · simp only [resolve_did, lastDeleg]
    rw [foldl_delegs p (sortEvents events) emptyDocState]
    rfl
  · simp only [resolve_did, lastOwner]
    rw [foldl_owner (sortEvents events) emptyDocState]
    rfl

end IndyBesuVdr
